import Mathlib

set_option maxRecDepth 100000

/-!
Verification of the account-validation layer of the `sol-lido` repository
(`src/anker/src/state.rs`, `src/anchor/src/state.rs`).

The Rust code is embedded shallowly:

* `Pubkey` is a 32-byte address, modelled as a list of naturals of length 32.
* Fallible checks that in Rust return `ProgramResult` are modelled as values
  of `PResult Unit`; a Rust `panic!`/`expect` is the distinguished outcome
  `PResult.panic`, and an `Err(e)` is `PResult.err e`.
* External collaborators consumed by the code (the address-derivation
  primitive `Pubkey::create_program_address`, the SPL token account
  unpacker, and the SPL token-swap state unpacker) are passed as explicit
  function parameters, since their implementations live outside this
  repository.
* Diagnostic-only data (the `msg!` logging and the `name`/`mint_name`
  string parameters that feed it) is omitted: per the specification the
  messages are not part of the functional contract, only the error kind is.
-/

/-- A Solana public key: exactly 32 bytes, each byte a natural number. -/
abbrev Pubkey := {l : List Nat // l.length = 32}

/-- The all-zeroes public key, `Pubkey::default()` in Rust. -/
def zeroPubkey : Pubkey := ⟨List.replicate 32 0, by simp⟩

/-- A public key whose 32 bytes all equal `n`; used to build concrete inputs. -/
def constPubkey (n : Nat) : Pubkey := ⟨List.replicate 32 n, by simp⟩

/-- Snapshot of a Solana account as the program sees it (`AccountInfo`):
its address, its owning program, and its raw data bytes. Only the fields the
validators read are modelled. -/
structure AccountInfo where
  key : Pubkey
  owner : Pubkey
  data : List Nat
  deriving DecidableEq

/-- The error kinds produced by the embedded checks. `AnkerError` and
`AnchorError` variants from the two crates, plus the `ProgramError` variants
that arise from `?`-propagation (`InvalidSeeds` from a failed
`create_program_address`, `BorshIoError` from a failed borsh write), are
flattened into one type, mirroring their common conversion into
`solana_program::ProgramError`. -/
inductive ProgError where
  | WrongSplTokenSwap
  | WrongSplTokenSwapParameters
  | InvalidRewardsDestination
  | InvalidDerivedAccount
  | InvalidTokenMint
  | InvalidTokenAccountOwner
  | InvalidTokenAccount
  | InvalidBSolAccountOwner
  | InvalidBSolAccount
  | InvalidBSolMint
  | InvalidReserveAccount
  | InvalidSeeds
  | BorshIoError
  | InvalidAccountData
  deriving DecidableEq

/-- Outcome of running a fallible Rust function: a normal result `ok`,
an ordinary error `err` (Rust `Err(e)`), or an abort `panic`
(Rust `panic!`, reached through `.expect(..)` or an out-of-bounds slice). -/
inductive PResult (α : Type) where
  | ok : α → PResult α
  | err : ProgError → PResult α
  | panic : PResult α
  deriving DecidableEq

/-- The dual-asset Instance Record, `struct Anker` from
`src/anker/src/state.rs`: five public keys followed by six bump-seed bytes. -/
structure Anker where
  solido_program_id : Pubkey
  solido : Pubkey
  b_sol_mint : Pubkey
  pool : Pubkey
  rewards_destination : Pubkey
  self_bump_seed : Nat
  mint_authority_bump_seed : Nat
  reserve_authority_bump_seed : Nat
  stsol_reserve_account_bump_seed : Nat
  ust_reserve_account_bump_seed : Nat
  token_swap_bump_seed : Nat
  deriving DecidableEq

/-- `Anker::default()`: every key all-zero, every bump seed zero. -/
def Anker.default : Anker :=
  ⟨zeroPubkey, zeroPubkey, zeroPubkey, zeroPubkey, zeroPubkey, 0, 0, 0, 0, 0, 0⟩

/-- The single-asset Instance Record, `struct Anchor` from
`src/anchor/src/state.rs`: three public keys followed by three bump-seed
bytes. -/
structure Anchor where
  bsol_mint : Pubkey
  reserve_authority : Pubkey
  lido : Pubkey
  mint_authority_bump_seed : Nat
  reserve_authority_bump_seed : Nat
  reserve_account_bump_seed : Nat
  deriving DecidableEq

/-- `Anchor::default()`. -/
def Anchor.default : Anchor := ⟨zeroPubkey, zeroPubkey, zeroPubkey, 0, 0, 0⟩

/-- Size of the serialized `Anker` struct in bytes, the constant `ANKER_LEN`
from `src/anker/src/state.rs`. -/
def ANKER_LEN : Nat := 166

/-- Borsh serialization of `Anker`, following the derived
`BorshSerialize` instance: each `Pubkey` contributes its 32 raw bytes and
each `u8` one byte, in field-declaration order. -/
def Anker.borshSerialize (a : Anker) : List Nat :=
  a.solido_program_id.val ++ a.solido.val ++ a.b_sol_mint.val ++ a.pool.val ++
    a.rewards_destination.val ++
    [a.self_bump_seed, a.mint_authority_bump_seed,
     a.reserve_authority_bump_seed, a.stsol_reserve_account_bump_seed,
     a.ust_reserve_account_bump_seed, a.token_swap_bump_seed]

/-- Borsh serialization of `Anchor`, following the derived
`BorshSerialize` instance. -/
def Anchor.borshSerialize (c : Anchor) : List Nat :=
  c.bsol_mint.val ++ c.reserve_authority.val ++ c.lido.val ++
    [c.mint_authority_bump_seed, c.reserve_authority_bump_seed,
     c.reserve_account_bump_seed]

/-- Read a 32-byte public key from the front of a byte stream, as the
derived `BorshDeserialize` instance does; fails when fewer than 32 bytes
remain. -/
def readPubkey (bs : List Nat) : Option (Pubkey × List Nat) :=
  if h : 32 ≤ bs.length then
    some (⟨bs.take 32, by rw [List.length_take]; omega⟩, bs.drop 32)
  else none

/-- Read one byte from the front of a byte stream. -/
def readU8 : List Nat → Option (Nat × List Nat)
  | [] => none
  | b :: rest => some (b, rest)

/-- Borsh deserialization of `Anker`, with the full-consumption requirement
of `try_from_slice`: trailing bytes are a schema violation.
Modelled from the spec: the `load` half of the persistence component
(§4.1, "fails with SchemaMismatch if the buffer cannot be parsed into the
fixed layout"); the loading call site is outside the given sources, so the
derived borsh `try_from_slice` semantics is followed. -/
def Anker.borshDeserialize (bs : List Nat) : Option Anker :=
  (readPubkey bs).bind fun (solido_program_id, bs) =>
  (readPubkey bs).bind fun (solido, bs) =>
  (readPubkey bs).bind fun (b_sol_mint, bs) =>
  (readPubkey bs).bind fun (pool, bs) =>
  (readPubkey bs).bind fun (rewards_destination, bs) =>
  (readU8 bs).bind fun (self_bump_seed, bs) =>
  (readU8 bs).bind fun (mint_authority_bump_seed, bs) =>
  (readU8 bs).bind fun (reserve_authority_bump_seed, bs) =>
  (readU8 bs).bind fun (stsol_reserve_account_bump_seed, bs) =>
  (readU8 bs).bind fun (ust_reserve_account_bump_seed, bs) =>
  (readU8 bs).bind fun (token_swap_bump_seed, bs) =>
  if bs = [] then
    some ⟨solido_program_id, solido, b_sol_mint, pool, rewards_destination,
          self_bump_seed, mint_authority_bump_seed,
          reserve_authority_bump_seed, stsol_reserve_account_bump_seed,
          ust_reserve_account_bump_seed, token_swap_bump_seed⟩
  else none

/-- Borsh deserialization of `Anchor`, with the full-consumption requirement
of `try_from_slice`. Modelled from the spec: the `load` half of the
persistence component (§4.1); the loading call site is outside the given
sources. -/
def Anchor.borshDeserialize (bs : List Nat) : Option Anchor :=
  (readPubkey bs).bind fun (bsol_mint, bs) =>
  (readPubkey bs).bind fun (reserve_authority, bs) =>
  (readPubkey bs).bind fun (lido, bs) =>
  (readU8 bs).bind fun (mint_authority_bump_seed, bs) =>
  (readU8 bs).bind fun (reserve_authority_bump_seed, bs) =>
  (readU8 bs).bind fun (reserve_account_bump_seed, bs) =>
  if bs = [] then
    some ⟨bsol_mint, reserve_authority, lido, mint_authority_bump_seed,
          reserve_authority_bump_seed, reserve_account_bump_seed⟩
  else none

/-- `Anker::save`: borsh-serializes the record into the account's byte
buffer through the `std::io::Write` instance of `&mut [u8]`, which succeeds
exactly when the buffer has room for every serialized byte (writing them at
the start and leaving any tail untouched) and otherwise fails with a
`WriteZero` i/o error, surfaced as `ProgramError::BorshIoError` by the `?`
operator. On success the result is the new buffer contents. -/
def Anker.save (a : Anker) (buffer : List Nat) : PResult (List Nat) :=
  if (Anker.borshSerialize a).length ≤ buffer.length then
    .ok (Anker.borshSerialize a ++ buffer.drop (Anker.borshSerialize a).length)
  else .err .BorshIoError

/-- `Anchor::save`, identical to `Anker::save` up to the record type. -/
def Anchor.save (c : Anchor) (buffer : List Nat) : PResult (List Nat) :=
  if (Anchor.borshSerialize c).length ≤ buffer.length then
    .ok (Anchor.borshSerialize c ++ buffer.drop (Anchor.borshSerialize c).length)
  else .err .BorshIoError

/-- Modelled from the spec: the role label constant for the stSOL reserve
account (`ANKER_STSOL_RESERVE_ACCOUNT`, defined in the anker crate root,
which is not among the given sources). Its exact bytes are irrelevant to the
properties proved; only that it is a fixed constant matters. -/
def ANKER_STSOL_RESERVE_ACCOUNT : List Nat := [1]

/-- Modelled from the spec: the role label constant for the UST reserve
account (`ANKER_UST_RESERVE_ACCOUNT`, defined in the anker crate root). -/
def ANKER_UST_RESERVE_ACCOUNT : List Nat := [2]

/-- Modelled from the spec: the role label constant for the reserve
authority (`ANKER_RESERVE_AUTHORITY`, defined in the anker crate root). -/
def ANKER_RESERVE_AUTHORITY : List Nat := [3]

/-- Modelled from the spec: the role label constant for the bSOL mint
authority (`ANKER_MINT_AUTHORITY`, defined in the anker crate root). -/
def ANKER_MINT_AUTHORITY : List Nat := [4]

/-- Modelled from the spec: the role label constant for the single-asset
variant's reserve account (`ANCHOR_RESERVE_ACCOUNT`, defined in the anchor
crate root). -/
def ANCHOR_RESERVE_ACCOUNT : List Nat := [5]

/-- Modelled from the spec: the address of the external SPL token program,
`spl_token::id()`, an opaque constant distinct from ordinary user keys. -/
def splTokenId : Pubkey := ⟨List.replicate 32 6, by simp⟩

/-- The external address-derivation primitive,
`Pubkey::create_program_address(seeds, program_id)`: a pure function from an
ordered list of seed byte-strings and an owning program id to an address, or
`none` when no valid capability address exists for those inputs. It is
consumed as a black box, so the embedded checks are parametrized by it. -/
abbrev Cpa := List (List Nat) → Pubkey → Option Pubkey

/-- Fields of an unpacked SPL token account (`spl_token::state::Account`)
that the validators read. Modelled from the spec: the token ledger service
is an external collaborator exposing `{owning_program, mint, balance}`. -/
structure TokenAccount where
  mint : Pubkey
  owner : Pubkey
  amount : Nat
  deriving DecidableEq

/-- The external SPL token account unpacker
(`spl_token::state::Account::unpack_from_slice`), consumed as a black box:
`none` models a malformed payload. -/
abbrev UnpackTokenAccount := List Nat → Option TokenAccount

/-- Fields of an unpacked SPL token-swap pool state
(`spl_token_swap::state::SwapV1`) that `check_token_swap` reads. Modelled
from the spec: the AMM pool service is an external collaborator exposing
these six addresses. -/
structure SwapV1 where
  token_a : Pubkey
  token_b : Pubkey
  pool_mint : Pubkey
  token_a_mint : Pubkey
  token_b_mint : Pubkey
  pool_fee_account : Pubkey
  deriving DecidableEq

/-- The external pool-state unpacker (`spl_token_swap::state::SwapV1::unpack`),
consumed as a black box; on failure it yields the error that
`check_token_swap` propagates with `?`. -/
abbrev UnpackSwap := List Nat → Except ProgError SwapV1

/-- The Solido state as far as the anker validators read it: its stSOL mint.
Modelled from the spec: the underlying-protocol instance (the `Lido` struct
of the lido crate, not among the given sources). -/
structure Lido where
  st_sol_mint : Pubkey
  deriving DecidableEq

/-- The account bundle handed to the swap-pool validator
(`SellRewardsAccountsInfo`). Modelled from the spec: its definition lives in
the anker instruction module, which is not among the given sources; the
fields are exactly those `check_token_swap` reads. -/
structure SellRewardsAccountsInfo where
  anker : AccountInfo
  pool : AccountInfo
  st_sol_token : AccountInfo
  ust_token : AccountInfo
  pool_mint : AccountInfo
  st_sol_mint : AccountInfo
  ust_mint : AccountInfo
  pool_fee_account : AccountInfo
  rewards_destination : AccountInfo
  deriving DecidableEq

/-- `Anker::check_self_address`: derives the instance's own address from
`[solido, self_bump_seed]` and compares. A derivation failure is met with
`.expect(..)`, i.e. a panic. -/
def Anker.check_self_address (cpa : Cpa) (a : Anker) (anker_program_id : Pubkey)
    (account_info : AccountInfo) : PResult Unit :=
  match cpa [a.solido.val, [a.self_bump_seed]] anker_program_id with
  | none => .panic
  | some address =>
    if account_info.key ≠ address then .err .InvalidDerivedAccount else .ok ()

/-- `Anker::check_derived_account_address`: derives the expected address
from `[anker_instance, seed, bump_seed]` and compares it with the candidate
account's address. A derivation failure is met with `.expect(..)`, i.e. a
panic. The `&self` receiver is kept for fidelity although the body never
reads it. -/
def Anker.check_derived_account_address (cpa : Cpa) (_a : Anker)
    (seed : List Nat) (bump_seed : Nat) (anker_program_id : Pubkey)
    (anker_instance : Pubkey) (account_info : AccountInfo) : PResult Unit :=
  match cpa [anker_instance.val, seed, [bump_seed]] anker_program_id with
  | none => .panic
  | some address =>
    if account_info.key ≠ address then .err .InvalidDerivedAccount else .ok ()

/-- `Anker::check_stsol_reserve_address`. -/
def Anker.check_stsol_reserve_address (cpa : Cpa) (a : Anker)
    (anker_program_id : Pubkey) (anker_instance : Pubkey)
    (stsol_reserve_account_info : AccountInfo) : PResult Unit :=
  Anker.check_derived_account_address cpa a ANKER_STSOL_RESERVE_ACCOUNT
    a.stsol_reserve_account_bump_seed anker_program_id anker_instance
    stsol_reserve_account_info

/-- `Anker::check_ust_reserve_address`. Note that the source passes
`self.stsol_reserve_account_bump_seed` here, not the UST bump. -/
def Anker.check_ust_reserve_address (cpa : Cpa) (a : Anker)
    (anker_program_id : Pubkey) (anker_instance : Pubkey)
    (ust_reserve_account_info : AccountInfo) : PResult Unit :=
  Anker.check_derived_account_address cpa a ANKER_UST_RESERVE_ACCOUNT
    a.stsol_reserve_account_bump_seed anker_program_id anker_instance
    ust_reserve_account_info

/-- `Anker::check_reserve_authority`. -/
def Anker.check_reserve_authority (cpa : Cpa) (a : Anker)
    (anker_program_id : Pubkey) (anker_instance : Pubkey)
    (reserve_authority_info : AccountInfo) : PResult Unit :=
  Anker.check_derived_account_address cpa a ANKER_RESERVE_AUTHORITY
    a.reserve_authority_bump_seed anker_program_id anker_instance
    reserve_authority_info

/-- `Anker::check_mint_authority`. -/
def Anker.check_mint_authority (cpa : Cpa) (a : Anker)
    (anker_program_id : Pubkey) (anker_instance : Pubkey)
    (mint_authority_info : AccountInfo) : PResult Unit :=
  Anker.check_derived_account_address cpa a ANKER_MINT_AUTHORITY
    a.mint_authority_bump_seed anker_program_id anker_instance
    mint_authority_info

/-- `Anker::check_mint`: rejects a candidate mint account whose owner is not
the SPL token program, or whose address differs from the stored
`b_sol_mint`. Note that the source returns `AnkerError::InvalidTokenMint`
in both failure branches. -/
def Anker.check_mint (a : Anker) (provided_mint : AccountInfo) : PResult Unit :=
  if provided_mint.owner ≠ splTokenId then .err .InvalidTokenMint
  else if a.b_sol_mint ≠ provided_mint.key then .err .InvalidTokenMint
  else .ok ()

/-- `Anker::check_is_spl_token_account`: owner must be the SPL token
program (else `InvalidTokenAccountOwner`), the data must unpack as a token
account (else `InvalidTokenAccount`), and the unpacked mint must equal the
expected one (else `InvalidTokenMint`). The diagnostic-only `mint_name`
parameter is omitted. -/
def Anker.check_is_spl_token_account (unpack_account : UnpackTokenAccount)
    (mint_address : Pubkey) (token_account_info : AccountInfo) : PResult Unit :=
  if token_account_info.owner ≠ splTokenId then .err .InvalidTokenAccountOwner
  else match unpack_account token_account_info.data with
  | none => .err .InvalidTokenAccount
  | some token_account =>
    if token_account.mint ≠ mint_address then .err .InvalidTokenMint
    else .ok ()

/-- `Anker::check_is_b_sol_account`: the bSOL specialization. -/
def Anker.check_is_b_sol_account (unpack_account : UnpackTokenAccount)
    (a : Anker) (token_account_info : AccountInfo) : PResult Unit :=
  Anker.check_is_spl_token_account unpack_account a.b_sol_mint token_account_info

/-- `Anker::check_is_st_sol_account`: the stSOL specialization. -/
def Anker.check_is_st_sol_account (unpack_account : UnpackTokenAccount)
    (solido : Lido) (token_account_info : AccountInfo) : PResult Unit :=
  Anker.check_is_spl_token_account unpack_account solido.st_sol_mint
    token_account_info

/-- `Anker::check_token_swap`: ordered validation of the swap pool. The
pool key is compared first; then the pool state is unpacked from
`data[1..]`, where the Rust slice `[1..]` panics when the data is empty;
then the UST reserve role is checked; then the six pool fields are compared
in order; finally the rewards destination is compared. -/
def Anker.check_token_swap (cpa : Cpa) (unpack_swap : UnpackSwap) (a : Anker)
    (anker_program_id : Pubkey) (accounts : SellRewardsAccountsInfo) :
    PResult Unit :=
  if a.pool ≠ accounts.pool.key then .err .WrongSplTokenSwap
  else if accounts.pool.data.length < 1 then .panic
  else match unpack_swap (accounts.pool.data.drop 1) with
  | .error e => .err e
  | .ok token_swap =>
    match Anker.check_ust_reserve_address cpa a anker_program_id
      accounts.anker.key accounts.ust_token with
    | .panic => .panic
    | .err e => .err e
    | .ok _ =>
      if token_swap.token_a ≠ accounts.st_sol_token.key then
        .err .WrongSplTokenSwapParameters
      else if token_swap.token_b ≠ accounts.ust_token.key then
        .err .WrongSplTokenSwapParameters
      else if token_swap.pool_mint ≠ accounts.pool_mint.key then
        .err .WrongSplTokenSwapParameters
      else if token_swap.token_a_mint ≠ accounts.st_sol_mint.key then
        .err .WrongSplTokenSwapParameters
      else if token_swap.token_b_mint ≠ accounts.ust_mint.key then
        .err .WrongSplTokenSwapParameters
      else if token_swap.pool_fee_account ≠ accounts.pool_fee_account.key then
        .err .WrongSplTokenSwapParameters
      else if a.rewards_destination ≠ accounts.rewards_destination.key then
        .err .InvalidRewardsDestination
      else .ok ()

/-- `Anchor::check_is_b_sol_account`: the single-asset variant's inlined
token-account check, with its own error constructors. -/
def Anchor.check_is_b_sol_account (unpack_account : UnpackTokenAccount)
    (c : Anchor) (token_account_info : AccountInfo) : PResult Unit :=
  if token_account_info.owner ≠ splTokenId then .err .InvalidBSolAccountOwner
  else match unpack_account token_account_info.data with
  | none => .err .InvalidBSolAccount
  | some token_account =>
    if token_account.mint ≠ c.bsol_mint then .err .InvalidBSolMint
    else .ok ()

/-- `Anchor::check_reserve_account`: derives the reserve account address
from `[anchor_state, ANCHOR_RESERVE_ACCOUNT, reserve_account_bump_seed]`.
Note that the source applies `?` to `create_program_address`, so a
derivation failure is propagated as the ordinary error
`ProgramError::InvalidSeeds`, not a panic. -/
def Anchor.check_reserve_account (cpa : Cpa) (c : Anchor)
    (program_id : Pubkey) (anchor_state : Pubkey) (provided_reserve : Pubkey) :
    PResult Unit :=
  match cpa [anchor_state.val, ANCHOR_RESERVE_ACCOUNT,
      [c.reserve_account_bump_seed]] program_id with
  | none => .err .InvalidSeeds
  | some reserve_account =>
    if reserve_account ≠ provided_reserve then .err .InvalidReserveAccount
    else .ok ()

/-- Reading a pubkey from a stream that starts with a pubkey's 32 bytes
yields that pubkey and the remainder. -/
theorem readPubkey_append (p : Pubkey) (rest : List Nat) :
    readPubkey (p.val ++ rest) = some (p, rest) := by
  have hp : p.val.length = 32 := p.property
  have hlen : 32 ≤ (p.val ++ rest).length := by
    rw [List.length_append, hp]; omega
  rw [readPubkey, dif_pos hlen]
  have ht : (p.val ++ rest).take 32 = p.val := List.take_left' hp
  have hd : (p.val ++ rest).drop 32 = rest := List.drop_left' hp
  simp only [Option.some.injEq, Prod.mk.injEq]
  exact ⟨Subtype.ext ht, hd⟩

/-- The `Anker` record always serializes to exactly `ANKER_LEN` bytes. -/
theorem anker_borshSerialize_length (a : Anker) :
    (Anker.borshSerialize a).length = ANKER_LEN := by
  simp [Anker.borshSerialize, ANKER_LEN, a.solido_program_id.property,
    a.solido.property, a.b_sol_mint.property, a.pool.property,
    a.rewards_destination.property]

/-- The `Anchor` record always serializes to exactly 99 bytes. -/
theorem anchor_borshSerialize_length (c : Anchor) :
    (Anchor.borshSerialize c).length = 99 := by
  simp [Anchor.borshSerialize, c.bsol_mint.property,
    c.reserve_authority.property, c.lido.property]

/-- C7: serializing the freshly constructed default dual-asset Instance
Record (`Anker::default()`) yields a byte sequence of length exactly the
declared constant `ANKER_LEN = 166`. -/
theorem anker_default_serializes_to_anker_len :
    (Anker.borshSerialize Anker.default).length = ANKER_LEN ∧ ANKER_LEN = 166 := by
  constructor
  · exact anker_borshSerialize_length Anker.default
  · rfl

/-- C8: serialization round-trips for both Instance Record types: for every
record `r`, deserializing the bytes produced by serializing `r` yields
exactly `r` (`load(save(r)) == r`). -/
theorem instance_record_roundtrip :
    (∀ a : Anker, Anker.borshDeserialize (Anker.borshSerialize a) = some a) ∧
    (∀ c : Anchor, Anchor.borshDeserialize (Anchor.borshSerialize c) = some c) := by
  constructor
  · intro a
    simp only [Anker.borshSerialize, Anker.borshDeserialize, List.append_assoc,
      readPubkey_append, Option.some_bind, readU8]
    simp
  · intro c
    simp only [Anchor.borshSerialize, Anchor.borshDeserialize, List.append_assoc,
      readPubkey_append, Option.some_bind, readU8]
    simp

/-- C9 counterexample: a buffer one byte longer than the serialized length
is accepted by `Anker::save` (the write succeeds and leaves the extra byte
untouched), refuting the claim that longer buffers are rejected. -/
theorem anker_save_longer_buffer_accepted :
    Anker.save Anker.default (List.replicate 167 0) =
      .ok (Anker.borshSerialize Anker.default ++ [0]) ∧
    (167 : Nat) ≠ ANKER_LEN := by
  constructor
  · decide
  · decide

/-- C9 amended: `save` writes the fixed-length encoding at the start of the
buffer and fails with the propagated i/o error exactly when the buffer is
shorter than the encoding; a buffer of the exact length or longer is
accepted, with any tail left unchanged. This holds for both record types. -/
theorem save_fails_iff_buffer_shorter (a : Anker) (c : Anchor)
    (buf bufc : List Nat) :
    (buf.length < ANKER_LEN → Anker.save a buf = .err .BorshIoError) ∧
    (ANKER_LEN ≤ buf.length →
      Anker.save a buf = .ok (Anker.borshSerialize a ++ buf.drop ANKER_LEN)) ∧
    (bufc.length < 99 → Anchor.save c bufc = .err .BorshIoError) ∧
    (99 ≤ bufc.length →
      Anchor.save c bufc = .ok (Anchor.borshSerialize c ++ bufc.drop 99)) := by
  have hl := anker_borshSerialize_length a
  have hlc := anchor_borshSerialize_length c
  refine ⟨fun h => ?_, fun h => ?_, fun h => ?_, fun h => ?_⟩
  · unfold Anker.save
    rw [hl, if_neg (by omega)]
  · unfold Anker.save
    rw [hl, if_pos (by omega)]
  · unfold Anchor.save
    rw [hlc, if_neg (by omega)]
  · unfold Anchor.save
    rw [hlc, if_pos (by omega)]

/-- Written from the specification's words (§4.4), for comparison with the
source's `check_is_spl_token_account`: three steps, each returning
immediately on failure — owner check, unpack check, mint check — with the
expected owning program as an explicit parameter. -/
def check_token_account_spec (unpack_account : UnpackTokenAccount)
    (expected_owning_program : Pubkey) (expected_mint : Pubkey)
    (account : AccountInfo) : PResult Unit :=
  if account.owner ≠ expected_owning_program then .err .InvalidTokenAccountOwner
  else match unpack_account account.data with
  | none => .err .InvalidTokenAccount
  | some token_account =>
    if token_account.mint ≠ expected_mint then .err .InvalidTokenMint
    else .ok ()

/-- C2: the token-account check is exactly the three-step cascade of the
specification, instantiated with the SPL token program as the expected
owner: wrong owner gives `InvalidTokenAccountOwner`, an account that fails
to unpack gives `InvalidTokenAccount`, a mismatched mint gives
`InvalidTokenMint`, and otherwise it succeeds; the bSOL and stSOL
specializations differ only in the expected mint parameter. -/
theorem anker_token_account_check_three_steps :
    (∀ u m t, Anker.check_is_spl_token_account u m t =
      check_token_account_spec u splTokenId m t) ∧
    (∀ u (a : Anker) t, Anker.check_is_b_sol_account u a t =
      check_token_account_spec u splTokenId a.b_sol_mint t) ∧
    (∀ u (s : Lido) t, Anker.check_is_st_sol_account u s t =
      check_token_account_spec u splTokenId s.st_sol_mint t) ∧
    (∀ u m t, t.owner ≠ splTokenId →
      Anker.check_is_spl_token_account u m t = .err .InvalidTokenAccountOwner) ∧
    (∀ u m t, t.owner = splTokenId → u t.data = none →
      Anker.check_is_spl_token_account u m t = .err .InvalidTokenAccount) ∧
    (∀ u m t ta, t.owner = splTokenId → u t.data = some ta → ta.mint ≠ m →
      Anker.check_is_spl_token_account u m t = .err .InvalidTokenMint) ∧
    (∀ u m t ta, t.owner = splTokenId → u t.data = some ta → ta.mint = m →
      Anker.check_is_spl_token_account u m t = .ok ()) := by
  refine ⟨fun u m t => rfl, fun u a t => rfl, fun u s t => rfl,
    fun u m t h => ?_, fun u m t h hu => ?_,
    fun u m t ta h hu hm => ?_, fun u m t ta h hu hm => ?_⟩
  · simp [Anker.check_is_spl_token_account, h]
  · simp [Anker.check_is_spl_token_account, h, hu]
  · simp [Anker.check_is_spl_token_account, h, hu, hm]
  · simp [Anker.check_is_spl_token_account, h, hu, hm]

/-- Witness for `anker_token_account_check_three_steps` at concrete inputs:
the success case of the cascade evaluated on a correctly owned, correctly
unpacking account with the matching mint. -/
theorem anker_token_account_check_three_steps_witness :
    Anker.check_is_spl_token_account
      (fun _ => some ⟨constPubkey 7, splTokenId, 0⟩) (constPubkey 7)
      ⟨constPubkey 8, splTokenId, []⟩ = .ok () :=
  anker_token_account_check_three_steps.2.2.2.2.2.2
    (fun _ => some ⟨constPubkey 7, splTokenId, 0⟩) (constPubkey 7)
    ⟨constPubkey 8, splTokenId, []⟩ ⟨constPubkey 7, splTokenId, 0⟩
    rfl rfl rfl

/-- A derivation primitive that fails on every input, to exercise the
failure branches of the derived-account checks. -/
def cpaNone : Cpa := fun _ _ => none

/-- Evaluates an ordered table of checks, returning the error of the first
failing entry and `Ok` when every entry passes; written from the
specification's "first failure wins" description of the swap-pool
validator. -/
def firstFailedCheck : List (Bool × ProgError) → PResult Unit
  | [] => .ok ()
  | (passes, e) :: rest => if passes then firstFailedCheck rest else .err e

/-- Written from the specification's words (§4.5), for comparison with the
source's `check_token_swap`: the ordered fail-closed pipeline — pool key,
pool unpack (skipping the leading discriminant byte), the UST reserve
role-check, then the six pool-field comparisons and the rewards destination
as an ordered table with first failure winning. -/
def check_token_swap_ordered (cpa : Cpa) (unpack_swap : UnpackSwap)
    (a : Anker) (anker_program_id : Pubkey)
    (accounts : SellRewardsAccountsInfo) : PResult Unit :=
  if accounts.pool.key ≠ a.pool then .err .WrongSplTokenSwap
  else match unpack_swap (accounts.pool.data.drop 1) with
  | .error e => .err e
  | .ok ts =>
    match Anker.check_ust_reserve_address cpa a anker_program_id
      accounts.anker.key accounts.ust_token with
    | .err e => .err e
    | .panic => .panic
    | .ok _ => firstFailedCheck
        [(ts.token_a == accounts.st_sol_token.key,
            .WrongSplTokenSwapParameters),
         (ts.token_b == accounts.ust_token.key,
            .WrongSplTokenSwapParameters),
         (ts.pool_mint == accounts.pool_mint.key,
            .WrongSplTokenSwapParameters),
         (ts.token_a_mint == accounts.st_sol_mint.key,
            .WrongSplTokenSwapParameters),
         (ts.token_b_mint == accounts.ust_mint.key,
            .WrongSplTokenSwapParameters),
         (ts.pool_fee_account == accounts.pool_fee_account.key,
            .WrongSplTokenSwapParameters),
         (a.rewards_destination == accounts.rewards_destination.key,
            .InvalidRewardsDestination)]

/-- C1: whenever the pool account's data is nonempty (so the one-byte
discriminant skip is in bounds), `check_token_swap` equals the
specification's ordered fail-closed pipeline: pool key mismatch gives
`WrongSplTokenSwap`; then the unpack error is propagated; then the UST
reserve role-check result; then the six pool-field comparisons give
`WrongSplTokenSwapParameters` at the first mismatch; then a rewards
destination mismatch gives `InvalidRewardsDestination`; otherwise `Ok`. No
later check runs once an earlier one fails. -/
theorem anker_check_token_swap_is_ordered_pipeline (cpa : Cpa)
    (u : UnpackSwap) (a : Anker) (pid : Pubkey)
    (accounts : SellRewardsAccountsInfo) (h : accounts.pool.data ≠ []) :
    Anker.check_token_swap cpa u a pid accounts =
      check_token_swap_ordered cpa u a pid accounts := by
  have hlen : ¬ accounts.pool.data.length < 1 := by
    cases hd : accounts.pool.data with
    | nil => exact absurd hd h
    | cons x xs => simp [hd]
  by_cases hp : a.pool = accounts.pool.key
  · rcases hu : u accounts.pool.data.tail with e | ts
    · simp [Anker.check_token_swap, check_token_swap_ordered, hp, hlen, hu]
    · rcases hust : Anker.check_ust_reserve_address cpa a pid
        accounts.anker.key accounts.ust_token with v | e | _
      all_goals
        simp [Anker.check_token_swap, check_token_swap_ordered, hp, hlen,
          hu, hust, firstFailedCheck, beq_iff_eq, ite_not]
  · simp [Anker.check_token_swap, check_token_swap_ordered, hp, Ne.symm hp]

/-- Witness for `anker_check_token_swap_is_ordered_pipeline` at concrete
inputs with a one-byte pool data buffer. -/
theorem anker_check_token_swap_is_ordered_pipeline_witness :
    Anker.check_token_swap cpaNone (fun _ => .error .InvalidAccountData)
      Anker.default (constPubkey 1)
      ⟨⟨constPubkey 2, constPubkey 3, []⟩, ⟨zeroPubkey, constPubkey 3, [0]⟩,
       ⟨constPubkey 4, constPubkey 3, []⟩, ⟨constPubkey 5, constPubkey 3, []⟩,
       ⟨constPubkey 6, constPubkey 3, []⟩, ⟨constPubkey 7, constPubkey 3, []⟩,
       ⟨constPubkey 8, constPubkey 3, []⟩, ⟨constPubkey 9, constPubkey 3, []⟩,
       ⟨constPubkey 10, constPubkey 3, []⟩⟩ =
    check_token_swap_ordered cpaNone (fun _ => .error .InvalidAccountData)
      Anker.default (constPubkey 1)
      ⟨⟨constPubkey 2, constPubkey 3, []⟩, ⟨zeroPubkey, constPubkey 3, [0]⟩,
       ⟨constPubkey 4, constPubkey 3, []⟩, ⟨constPubkey 5, constPubkey 3, []⟩,
       ⟨constPubkey 6, constPubkey 3, []⟩, ⟨constPubkey 7, constPubkey 3, []⟩,
       ⟨constPubkey 8, constPubkey 3, []⟩, ⟨constPubkey 9, constPubkey 3, []⟩,
       ⟨constPubkey 10, constPubkey 3, []⟩⟩ :=
  anker_check_token_swap_is_ordered_pipeline cpaNone
    (fun _ => .error .InvalidAccountData) Anker.default (constPubkey 1)
    _ (by decide)

/-- C10: if the pool account's key equals the record's stored pool address
but the pool account's data is empty, `check_token_swap` panics on the
out-of-bounds slice `data[1..]` instead of returning a pool-unpack error:
the one-byte discriminant skip is unguarded. -/
theorem anker_check_token_swap_empty_pool_data_panics (cpa : Cpa)
    (u : UnpackSwap) (a : Anker) (pid : Pubkey)
    (accounts : SellRewardsAccountsInfo)
    (hkey : accounts.pool.key = a.pool) (hdata : accounts.pool.data = []) :
    Anker.check_token_swap cpa u a pid accounts = .panic := by
  simp [Anker.check_token_swap, hkey, hdata]

/-- Witness for `anker_check_token_swap_empty_pool_data_panics`: the default
record with a pool account at the stored (all-zero) pool address carrying
empty data. -/
theorem anker_check_token_swap_empty_pool_data_panics_witness :
    Anker.check_token_swap cpaNone (fun _ => .error .InvalidAccountData)
      Anker.default (constPubkey 1)
      ⟨⟨constPubkey 2, constPubkey 3, []⟩, ⟨zeroPubkey, constPubkey 3, []⟩,
       ⟨constPubkey 4, constPubkey 3, []⟩, ⟨constPubkey 5, constPubkey 3, []⟩,
       ⟨constPubkey 6, constPubkey 3, []⟩, ⟨constPubkey 7, constPubkey 3, []⟩,
       ⟨constPubkey 8, constPubkey 3, []⟩, ⟨constPubkey 9, constPubkey 3, []⟩,
       ⟨constPubkey 10, constPubkey 3, []⟩⟩ = .panic :=
  anker_check_token_swap_empty_pool_data_panics cpaNone
    (fun _ => .error .InvalidAccountData) Anker.default (constPubkey 1)
    _ (by decide) rfl

/-- A concrete candidate mint account whose owner is not the SPL token
program. -/
def wrongOwnerMint : AccountInfo := ⟨constPubkey 7, constPubkey 8, []⟩

/-- C3 counterexample: on a candidate whose owner is not the SPL token
program, `check_mint` returns `InvalidTokenMint` itself — not an
invalid-account-owner kind distinct from it, as the claim states. -/
theorem anker_check_mint_wrong_owner_counterexample :
    wrongOwnerMint.owner ≠ splTokenId ∧
    Anker.check_mint Anker.default wrongOwnerMint = .err .InvalidTokenMint := by
  constructor
  · decide
  · decide

/-- C3 amended: `check_mint` returns the single error kind
`InvalidTokenMint` both when the candidate's owner is not the SPL token
program and when the owner is correct but the candidate's address differs
from the stored mint address; it returns `Ok` exactly when both conditions
hold, and no other error kind can be produced. -/
theorem anker_check_mint_invalid_token_mint_for_both (a : Anker)
    (m : AccountInfo) :
    (m.owner ≠ splTokenId → Anker.check_mint a m = .err .InvalidTokenMint) ∧
    (m.owner = splTokenId → a.b_sol_mint ≠ m.key →
      Anker.check_mint a m = .err .InvalidTokenMint) ∧
    (Anker.check_mint a m = .ok () ↔
      (m.owner = splTokenId ∧ a.b_sol_mint = m.key)) ∧
    (∀ e, Anker.check_mint a m = .err e → e = .InvalidTokenMint) := by
  refine ⟨fun h => ?_, fun h hm => ?_, ?_, fun e he => ?_⟩
  · simp [Anker.check_mint, h]
  · simp [Anker.check_mint, h, hm]
  · unfold Anker.check_mint
    by_cases h : m.owner = splTokenId <;> by_cases hm : a.b_sol_mint = m.key <;>
      simp [h, hm]
  · unfold Anker.check_mint at he
    by_cases h : m.owner = splTokenId <;> by_cases hm : a.b_sol_mint = m.key <;>
      simp [h, hm] at he <;> simp [he]

/-- Witness for `anker_check_mint_invalid_token_mint_for_both` at a concrete
input: the address-mismatch case with the correct owner also yields
`InvalidTokenMint`. -/
theorem anker_check_mint_invalid_token_mint_for_both_witness :
    Anker.check_mint Anker.default ⟨constPubkey 9, splTokenId, []⟩ =
      .err .InvalidTokenMint :=
  (anker_check_mint_invalid_token_mint_for_both Anker.default
    ⟨constPubkey 9, splTokenId, []⟩).2.1 rfl (by decide)

/-- C4: the UST reserve role-check derives its expected address from the
UST role label together with the primary (stSOL) reserve's bump seed — the
derivation it performs is `create_program_address([anker_instance,
ANKER_UST_RESERVE_ACCOUNT, stsol_reserve_account_bump_seed], program_id)` —
and its result never depends on the record's
`ust_reserve_account_bump_seed` field. -/
theorem anker_ust_reserve_check_reuses_stsol_bump :
    (∀ (cpa : Cpa) (a : Anker) (pid inst : Pubkey) (acct : AccountInfo),
      Anker.check_ust_reserve_address cpa a pid inst acct =
        match cpa [inst.val, ANKER_UST_RESERVE_ACCOUNT,
            [a.stsol_reserve_account_bump_seed]] pid with
        | none => .panic
        | some address =>
          if acct.key ≠ address then .err .InvalidDerivedAccount
          else .ok ()) ∧
    (∀ (cpa : Cpa) (a : Anker) (pid inst : Pubkey) (acct : AccountInfo)
        (bump : Nat),
      Anker.check_ust_reserve_address cpa
          { a with ust_reserve_account_bump_seed := bump } pid inst acct =
        Anker.check_ust_reserve_address cpa a pid inst acct) :=
  ⟨fun _ _ _ _ _ => rfl, fun _ _ _ _ _ _ => rfl⟩

/-- C5 counterexample: when the address-derivation primitive fails, the
single-asset variant's reserve-account check (`Anchor::check_reserve_account`)
returns the ordinary propagated error `InvalidSeeds` — it does not abort,
refuting the claim that every derived-account check treats this failure as
fatal. -/
theorem anchor_reserve_check_propagates_derivation_failure :
    Anchor.check_reserve_account cpaNone Anchor.default (constPubkey 1)
      (constPubkey 2) (constPubkey 3) = .err .InvalidSeeds ∧
    (PResult.err .InvalidSeeds : PResult Unit) ≠ .panic := by
  constructor
  · rfl
  · decide

/-- C5 amended: when the address-derivation primitive fails on
program-controlled inputs, the dual-asset variant's self-address check and
per-role derived-address checks abort (panic, through `.expect`), while the
single-asset variant's reserve-account check instead propagates the failure
as the ordinary error `InvalidSeeds` (through `?`). -/
theorem derivation_failure_fatal_in_anker_error_in_anchor :
    (∀ (cpa : Cpa) (a : Anker) (pid : Pubkey) (acct : AccountInfo),
      cpa [a.solido.val, [a.self_bump_seed]] pid = none →
      Anker.check_self_address cpa a pid acct = .panic) ∧
    (∀ (cpa : Cpa) (a : Anker) (seed : List Nat) (bump : Nat)
        (pid inst : Pubkey) (acct : AccountInfo),
      cpa [inst.val, seed, [bump]] pid = none →
      Anker.check_derived_account_address cpa a seed bump pid inst acct =
        .panic) ∧
    (∀ (cpa : Cpa) (c : Anchor) (pid st prov : Pubkey),
      cpa [st.val, ANCHOR_RESERVE_ACCOUNT, [c.reserve_account_bump_seed]]
          pid = none →
      Anchor.check_reserve_account cpa c pid st prov = .err .InvalidSeeds) := by
  refine ⟨fun cpa a pid acct h => ?_, fun cpa a seed bump pid inst acct h => ?_,
    fun cpa c pid st prov h => ?_⟩
  · simp [Anker.check_self_address, h]
  · simp [Anker.check_derived_account_address, h]
  · simp [Anchor.check_reserve_account, h]

/-- Witness for `derivation_failure_fatal_in_anker_error_in_anchor` with the
always-failing derivation primitive at concrete inputs. -/
theorem derivation_failure_fatal_in_anker_error_in_anchor_witness :
    Anker.check_self_address cpaNone Anker.default (constPubkey 1)
      ⟨constPubkey 2, constPubkey 3, []⟩ = .panic ∧
    Anker.check_derived_account_address cpaNone Anker.default [9] 0
      (constPubkey 1) (constPubkey 2) ⟨constPubkey 3, constPubkey 4, []⟩ =
      .panic ∧
    Anchor.check_reserve_account cpaNone Anchor.default (constPubkey 1)
      (constPubkey 2) (constPubkey 3) = .err .InvalidSeeds :=
  ⟨derivation_failure_fatal_in_anker_error_in_anchor.1 cpaNone Anker.default
      (constPubkey 1) ⟨constPubkey 2, constPubkey 3, []⟩ rfl,
   derivation_failure_fatal_in_anker_error_in_anchor.2.1 cpaNone Anker.default
      [9] 0 (constPubkey 1) (constPubkey 2)
      ⟨constPubkey 3, constPubkey 4, []⟩ rfl,
   derivation_failure_fatal_in_anker_error_in_anchor.2.2 cpaNone Anchor.default
      (constPubkey 1) (constPubkey 2) (constPubkey 3) rfl⟩

/-- C6: whenever the derivation of the expected address succeeds, the
derived-account check accepts exactly the candidate whose address equals the
derived address and rejects every other candidate with
`InvalidDerivedAccount`; the record is never modified (the check is a pure
function of its inputs and returns only a result). -/
theorem anker_check_derived_account_address_correct (cpa : Cpa) (a : Anker)
    (seed : List Nat) (bump : Nat) (pid inst : Pubkey) (acct : AccountInfo)
    (addr : Pubkey) (h : cpa [inst.val, seed, [bump]] pid = some addr) :
    (acct.key = addr →
      Anker.check_derived_account_address cpa a seed bump pid inst acct =
        .ok ()) ∧
    (acct.key ≠ addr →
      Anker.check_derived_account_address cpa a seed bump pid inst acct =
        .err .InvalidDerivedAccount) := by
  constructor
  · intro he
    simp [Anker.check_derived_account_address, h, he]
  · intro hne
    simp [Anker.check_derived_account_address, h, hne]

/-- Witness for `anker_check_derived_account_address_correct`: with a
derivation primitive returning a fixed address and a candidate sitting at
that address, the check succeeds. -/
theorem anker_check_derived_account_address_correct_witness :
    Anker.check_derived_account_address (fun _ _ => some (constPubkey 9))
      Anker.default [1] 0 (constPubkey 3) (constPubkey 4)
      ⟨constPubkey 9, constPubkey 0, []⟩ = .ok () :=
  (anker_check_derived_account_address_correct (fun _ _ => some (constPubkey 9))
    Anker.default [1] 0 (constPubkey 3) (constPubkey 4)
    ⟨constPubkey 9, constPubkey 0, []⟩ (constPubkey 9) rfl).1 rfl

/-- Witness for `save_fails_iff_buffer_shorter` at concrete inputs: a
165-byte buffer is rejected by `Anker::save` and a 99-byte buffer is
accepted by `Anchor::save`. -/
theorem save_fails_iff_buffer_shorter_witness :
    Anker.save Anker.default (List.replicate 165 0) = .err .BorshIoError ∧
    Anchor.save Anchor.default (List.replicate 99 0) =
      .ok (Anchor.borshSerialize Anchor.default ++
        (List.replicate 99 (0 : Nat)).drop 99) := by
  constructor
  · exact (save_fails_iff_buffer_shorter Anker.default Anchor.default
      (List.replicate 165 0) (List.replicate 99 0)).1 (by decide)
  · exact (save_fails_iff_buffer_shorter Anker.default Anchor.default
      (List.replicate 165 0) (List.replicate 99 0)).2.2.2 (by decide)
